import Mathlib

/-!
Verification of the `makcu` package initializer (`src/makcu/__init__.py`).

The initializer imports `MakcuController` from the `controller` module,
`MouseButton` from the `enums` module, and `MakcuError` /
`MakcuConnectionError` from the `errors` module; it defines the factory
function `create_controller(port=None, debug=False, send_init=True)` which
constructs a `MakcuController`, calls `connect()` on it and returns it; and
it declares the export list of five names.

The controller, enums and errors modules themselves are not among the
supplied sources, so constructor and `connect` behaviour is modelled
abstractly: object construction and method calls are recorded as events on
a heap trace, and an environment decides whether the external constructor
or `connect` raises.  Python object identity is modelled by a fresh
numeric object id allocated at construction.
-/

namespace Makcu

/-- A Python serial-port identifier: `None` (auto-detect) or a string. -/
abbrev Port := Option String

/-- The fragment of Python values appearing in this module's surface:
`None`, booleans and strings. -/
inductive PyValue where
  | pyNone : PyValue
  | pyBool : Bool → PyValue
  | pyStr : String → PyValue
deriving DecidableEq, Repr

/-- Modelled from the spec: a Python exception value raised by the opaque
controller module (the errors module is not among the supplied sources).
Its class name and message are carried so that propagation "unchanged" is
equality of the exception value. -/
structure Exc where
  etype : String
  msg : String
deriving DecidableEq, Repr

/-- An observable event of the package: construction of a controller
object, or invocation of a named method with positional arguments on an
object. -/
inductive Event where
  | ctorCall : Nat → Port → Bool → Bool → Event
  | methodCall : Nat → String → List PyValue → Event
deriving DecidableEq, Repr

/-- `true` exactly on invocations of the `connect` method. -/
def Event.isConnectCall : Event → Bool
  | Event.methodCall _ m _ => m = "connect"
  | _ => false

/-- The observable state surrounding `create_controller`: the next fresh
object id, the trace of events so far, and the package's module-level
(global) bindings. -/
structure Heap where
  nextId : Nat
  trace : List Event
  globals : List (String × PyValue)
deriving DecidableEq, Repr

/-- A `MakcuController` object as visible to the initializer: its identity
(`objId`, modelling Python object identity) and the three constructor
arguments it was built from. -/
structure MakcuController where
  objId : Nat
  port : Port
  debug : Bool
  send_init : Bool
deriving DecidableEq, Repr

/-- Modelled from the spec: the opaque behaviour of the external controller
module.  `ctorFails` tells whether `MakcuController(port, debug, send_init)`
raises, and `connectFails` tells whether `connect()` on a given object
raises; the spec leaves both unspecified ("whatever the (unseen) connect
operation raises"). -/
structure ControllerEnv where
  ctorFails : Port → Bool → Bool → Option Exc
  connectFails : MakcuController → Option Exc

/-- Modelled from the spec: evaluation of `MakcuController(port=port,
debug=debug, send_init=send_init)` (the controller module is not among the
supplied sources).  On success it allocates a fresh object holding the
three arguments and records the construction event; on failure the
exception propagates. -/
def MakcuController.construct (env : ControllerEnv) (h : Heap)
    (port : Port) (debug : Bool) (send_init : Bool) :
    Except Exc (MakcuController × Heap) :=
  match env.ctorFails port debug send_init with
  | some e => Except.error e
  | none =>
      Except.ok (⟨h.nextId, port, debug, send_init⟩,
        { h with
            nextId := h.nextId + 1,
            trace := h.trace ++ [Event.ctorCall h.nextId port debug send_init] })

/-- Modelled from the spec: evaluation of `makcu.connect()` (the controller
module is not among the supplied sources).  The invocation is recorded as a
`connect` method call with no arguments; the environment decides whether it
raises. -/
def MakcuController.connect (env : ControllerEnv) (c : MakcuController)
    (h : Heap) : Except Exc Heap :=
  match env.connectFails c with
  | some e => Except.error e
  | none => Except.ok { h with trace := h.trace ++ [Event.methodCall c.objId "connect" []] }

/-- The factory function of `src/makcu/__init__.py`:
constructs a `MakcuController` with the given arguments, calls `connect()`
on it, and returns it; an exception from either step propagates. -/
def create_controller (env : ControllerEnv) (h : Heap)
    (port : Port) (debug : Bool) (send_init : Bool) :
    Except Exc (MakcuController × Heap) :=
  match MakcuController.construct env h port debug send_init with
  | Except.error e => Except.error e
  | Except.ok (makcu, h₁) =>
      match MakcuController.connect env makcu h₁ with
      | Except.error e => Except.error e
      | Except.ok h₂ => Except.ok (makcu, h₂)

/-- The default value of the `port` parameter in the source signature
`create_controller(port=None, debug=False, send_init=True)`. -/
def create_controller_default_port : Port := none

/-- The default value of the `debug` parameter in the source signature. -/
def create_controller_default_debug : Bool := false

/-- The default value of the `send_init` parameter in the source
signature. -/
def create_controller_default_send_init : Bool := true

/-- The zero-argument call `create_controller()`: every parameter takes its
declared default. -/
def create_controller₀ (env : ControllerEnv) (h : Heap) :
    Except Exc (MakcuController × Heap) :=
  create_controller env h create_controller_default_port
    create_controller_default_debug create_controller_default_send_init

/-- A formal parameter of a Python function signature: its name and its
default value, when it has one. -/
structure PyParam where
  name : String
  dflt : Option PyValue
deriving DecidableEq, Repr

/-- The signature of `create_controller` as written in the source:
`def create_controller(port=None, debug=False, send_init=True)`. -/
def create_controller_signature : List PyParam :=
  [⟨"port", some PyValue.pyNone⟩,
   ⟨"debug", some (PyValue.pyBool false)⟩,
   ⟨"send_init", some (PyValue.pyBool true)⟩]

/-- One `from .<module> import <name>` binding of the initializer. -/
structure ImportedName where
  fromModule : String
  name : String
deriving DecidableEq, Repr

/-- The import lines of `src/makcu/__init__.py`, in source order:
`from .controller import MakcuController`, `from .enums import MouseButton`,
`from .errors import MakcuError, MakcuConnectionError`. -/
def makcu_package_imports : List ImportedName :=
  [⟨"controller", "MakcuController"⟩,
   ⟨"enums", "MouseButton"⟩,
   ⟨"errors", "MakcuError"⟩,
   ⟨"errors", "MakcuConnectionError"⟩]

/-- The `__all__` list of `src/makcu/__init__.py`, in source order. -/
def makcu_all : List String :=
  ["MakcuController", "MouseButton", "MakcuError", "MakcuConnectionError",
   "create_controller"]

/-- The exported names that are error types: the exported names imported
from the `errors` module. -/
def error_exports : List String :=
  (makcu_package_imports.filter (fun i => i.fromModule = "errors")).map
    ImportedName.name |>.filter (fun n => n ∈ makcu_all)

/-- An environment in which neither the constructor nor `connect`
raises. -/
def happyEnv : ControllerEnv := ⟨fun _ _ _ => none, fun _ => none⟩

/-- The initial heap: no objects allocated, empty trace, empty globals. -/
def emptyHeap : Heap := ⟨0, [], []⟩

lemma construct_ok_spec (env : ControllerEnv) (h : Heap) (port : Port)
    (debug send_init : Bool) (c : MakcuController) (h₁ : Heap)
    (hc : MakcuController.construct env h port debug send_init = Except.ok (c, h₁)) :
    c = ⟨h.nextId, port, debug, send_init⟩ ∧
    h₁ = { h with
             nextId := h.nextId + 1,
             trace := h.trace ++ [Event.ctorCall h.nextId port debug send_init] } := by
  unfold MakcuController.construct at hc
  cases hcf : env.ctorFails port debug send_init with
  | some e => rw [hcf] at hc; exact Except.noConfusion hc
  | none =>
      rw [hcf] at hc
      simp only [Except.ok.injEq, Prod.mk.injEq] at hc
      exact ⟨hc.1.symm, hc.2.symm⟩

lemma connect_ok_spec (env : ControllerEnv) (c : MakcuController) (h h' : Heap)
    (hc : MakcuController.connect env c h = Except.ok h') :
    h' = { h with trace := h.trace ++ [Event.methodCall c.objId "connect" []] } := by
  unfold MakcuController.connect at hc
  cases hcf : env.connectFails c with
  | some e => rw [hcf] at hc; exact Except.noConfusion hc
  | none =>
      rw [hcf] at hc
      simp only [Except.ok.injEq] at hc
      exact hc.symm

lemma create_controller_ok_spec (env : ControllerEnv) (h : Heap) (port : Port)
    (debug send_init : Bool) (c : MakcuController) (h' : Heap)
    (hok : create_controller env h port debug send_init = Except.ok (c, h')) :
    c = ⟨h.nextId, port, debug, send_init⟩ ∧
    h' = { h with
             nextId := h.nextId + 1,
             trace := h.trace ++ [Event.ctorCall h.nextId port debug send_init,
                                  Event.methodCall h.nextId "connect" []] } := by
  unfold create_controller at hok
  split at hok
  · exact Except.noConfusion hok
  · rename_i makcu h₁ hc
    split at hok
    · exact Except.noConfusion hok
    · rename_i h₂ hcn
      simp only [Except.ok.injEq, Prod.mk.injEq] at hok
      obtain ⟨rfl, rfl⟩ := hok
      obtain ⟨rfl, rfl⟩ := construct_ok_spec env h port debug send_init _ _ hc
      have h2 := connect_ok_spec env _ _ _ hcn
      subst h2
      exact ⟨rfl, by simp⟩

/-- C1: on a normal return, `create_controller` returns exactly the object
produced by the `MakcuController` constructor call (same identity, same
object), and the three arguments were forwarded to it verbatim. -/
theorem create_controller_returns_constructed (env : ControllerEnv) (h : Heap)
    (port : Port) (debug send_init : Bool) (c : MakcuController) (h' : Heap)
    (hok : create_controller env h port debug send_init = Except.ok (c, h')) :
    (∃ h₁, MakcuController.construct env h port debug send_init = Except.ok (c, h₁)) ∧
    c.port = port ∧ c.debug = debug ∧ c.send_init = send_init := by
  unfold create_controller at hok
  split at hok
  · exact Except.noConfusion hok
  · rename_i makcu h₁ hc
    split at hok
    · exact Except.noConfusion hok
    · rename_i h₂ hcn
      simp only [Except.ok.injEq, Prod.mk.injEq] at hok
      obtain ⟨rfl, rfl⟩ := hok
      obtain ⟨hc1, rfl⟩ := construct_ok_spec env h port debug send_init _ _ hc
      exact ⟨⟨_, hc⟩, by rw [hc1], by rw [hc1], by rw [hc1]⟩

/-- Witness for C1 at a concrete environment, heap and arguments. -/
theorem create_controller_returns_constructed_witness :
    (∃ h₁, MakcuController.construct happyEnv emptyHeap none false true =
        Except.ok (⟨0, none, false, true⟩, h₁)) ∧
    MakcuController.port ⟨0, none, false, true⟩ = none ∧
    MakcuController.debug ⟨0, none, false, true⟩ = false ∧
    MakcuController.send_init ⟨0, none, false, true⟩ = true :=
  create_controller_returns_constructed happyEnv emptyHeap none false true
    ⟨0, none, false, true⟩
    ⟨1, [Event.ctorCall 0 none false true, Event.methodCall 0 "connect" []], []⟩
    rfl

/-- C2: on a normal return, the events added by `create_controller` are
exactly the construction of the returned object followed by one `connect`
invocation on that same object: `connect` is called exactly once, on the
returned object, after its construction and before the return, and no
`connect` call on any other object is added to the trace. -/
theorem create_controller_connect_invoked_once (env : ControllerEnv) (h : Heap)
    (port : Port) (debug send_init : Bool) (c : MakcuController) (h' : Heap)
    (hok : create_controller env h port debug send_init = Except.ok (c, h')) :
    h'.trace = h.trace ++ [Event.ctorCall c.objId port debug send_init,
                           Event.methodCall c.objId "connect" []] ∧
    h'.trace.filter Event.isConnectCall =
      h.trace.filter Event.isConnectCall ++ [Event.methodCall c.objId "connect" []] := by
  obtain ⟨rfl, rfl⟩ := create_controller_ok_spec env h port debug send_init c h' hok
  refine ⟨rfl, ?_⟩
  simp [List.filter_append, Event.isConnectCall]

/-- Witness for C2 at a concrete environment, heap and arguments. -/
theorem create_controller_connect_invoked_once_witness :
    Heap.trace ⟨1, [Event.ctorCall 0 (some "COM3") true false,
                    Event.methodCall 0 "connect" []], []⟩ =
      Heap.trace ⟨0, [], []⟩ ++
        [Event.ctorCall 0 (some "COM3") true false,
         Event.methodCall 0 "connect" []] ∧
    (Heap.trace ⟨1, [Event.ctorCall 0 (some "COM3") true false,
                     Event.methodCall 0 "connect" []], []⟩).filter Event.isConnectCall =
      (Heap.trace ⟨0, [], []⟩).filter Event.isConnectCall ++
        [Event.methodCall 0 "connect" []] :=
  create_controller_connect_invoked_once happyEnv ⟨0, [], []⟩ (some "COM3") true false
    ⟨0, some "COM3", true, false⟩
    ⟨1, [Event.ctorCall 0 (some "COM3") true false,
         Event.methodCall 0 "connect" []], []⟩
    rfl

/-- C3: `create_controller` evaluates to a raised exception `e` exactly
when either the `MakcuController` constructor raises `e`, or the
constructor succeeds and the `connect()` call on the constructed object
raises `e`; the exception value is propagated unchanged, and an
exceptional result carries no controller object by construction of
`Except`. -/
theorem create_controller_error_iff (env : ControllerEnv) (h : Heap)
    (port : Port) (debug send_init : Bool) (e : Exc) :
    create_controller env h port debug send_init = Except.error e ↔
      (MakcuController.construct env h port debug send_init = Except.error e ∨
       ∃ c h₁, MakcuController.construct env h port debug send_init = Except.ok (c, h₁) ∧
         MakcuController.connect env c h₁ = Except.error e) := by
  unfold create_controller
  cases hc : MakcuController.construct env h port debug send_init with
  | error e' => simp [hc]
  | ok p =>
      obtain ⟨c₁, h₁⟩ := p
      cases hcn : MakcuController.connect env c₁ h₁ with
      | error e' =>
          simp only [hc, hcn, Except.ok.injEq, Prod.mk.injEq, Except.error.injEq,
            false_or, reduceCtorEq]
          constructor
          · intro he
            exact ⟨c₁, h₁, ⟨rfl, rfl⟩, he ▸ hcn⟩
          · rintro ⟨c, h₂, ⟨rfl, rfl⟩, hce⟩
            rw [hcn] at hce
            exact (Except.error.injEq e' e).mp hce
      | ok h₂ => simp [hc, hcn]

/-- C8: on a normal return, the only observable effects of
`create_controller` are the allocation of one controller object and one
`connect()` method call with no arguments on it: the module globals are
unchanged, exactly one object id was consumed, the trace grew by exactly
the construction event and the argument-free `connect` call, and the
argument values were recorded unmodified in the constructed object. -/
theorem create_controller_frame (env : ControllerEnv) (h : Heap)
    (port : Port) (debug send_init : Bool) (c : MakcuController) (h' : Heap)
    (hok : create_controller env h port debug send_init = Except.ok (c, h')) :
    h'.globals = h.globals ∧
    h'.nextId = h.nextId + 1 ∧
    h'.trace = h.trace ++ [Event.ctorCall c.objId port debug send_init,
                           Event.methodCall c.objId "connect" []] ∧
    c.port = port ∧ c.debug = debug ∧ c.send_init = send_init := by
  obtain ⟨rfl, rfl⟩ := create_controller_ok_spec env h port debug send_init c h' hok
  exact ⟨rfl, rfl, rfl, rfl, rfl, rfl⟩

/-- Witness for C8 at a concrete environment, heap and arguments. -/
theorem create_controller_frame_witness :
    Heap.globals ⟨3, [Event.ctorCall 2 none false true,
                      Event.methodCall 2 "connect" []], [("version", PyValue.pyStr "2.2.0")]⟩ =
      Heap.globals ⟨2, [], [("version", PyValue.pyStr "2.2.0")]⟩ ∧
    Heap.nextId ⟨3, [Event.ctorCall 2 none false true,
                     Event.methodCall 2 "connect" []], [("version", PyValue.pyStr "2.2.0")]⟩ =
      Heap.nextId ⟨2, [], [("version", PyValue.pyStr "2.2.0")]⟩ + 1 ∧
    Heap.trace ⟨3, [Event.ctorCall 2 none false true,
                    Event.methodCall 2 "connect" []], [("version", PyValue.pyStr "2.2.0")]⟩ =
      Heap.trace ⟨2, [], [("version", PyValue.pyStr "2.2.0")]⟩ ++
        [Event.ctorCall 2 none false true, Event.methodCall 2 "connect" []] ∧
    MakcuController.port ⟨2, none, false, true⟩ = none ∧
    MakcuController.debug ⟨2, none, false, true⟩ = false ∧
    MakcuController.send_init ⟨2, none, false, true⟩ = true :=
  create_controller_frame happyEnv ⟨2, [], [("version", PyValue.pyStr "2.2.0")]⟩
    none false true ⟨2, none, false, true⟩
    ⟨3, [Event.ctorCall 2 none false true, Event.methodCall 2 "connect" []],
     [("version", PyValue.pyStr "2.2.0")]⟩
    rfl

/-- C4 counterexample: not all four re-exported names originate from the
controller module — `MouseButton` is imported from the `enums` module
(and the two error names from the `errors` module). -/
theorem makcu_imports_not_all_from_controller :
    ImportedName.mk "enums" "MouseButton" ∈ makcu_package_imports ∧
    ImportedName.fromModule (ImportedName.mk "enums" "MouseButton") ≠ "controller" := by
  decide

/-- C4 amended: the package initializer re-exports exactly four names —
imported from the three modules `controller`, `enums` and `errors`, in
that order — and together with the one factory function it defines they
form the public export list, which consists of exactly the five names
`MakcuController`, `MouseButton`, `MakcuError`, `MakcuConnectionError`
and `create_controller`. -/
theorem makcu_exports_amended :
    makcu_all.length = 5 ∧
    makcu_all.Nodup ∧
    makcu_package_imports.length = 4 ∧
    makcu_package_imports.map ImportedName.name ++ ["create_controller"] = makcu_all ∧
    makcu_package_imports.map ImportedName.fromModule =
      ["controller", "enums", "errors", "errors"] := by
  decide

/-- C5: exactly two exported names are error types (names imported from
the `errors` module), namely `MakcuError` and `MakcuConnectionError`, and
the connection-specific error name is distinct from the general one. -/
theorem makcu_error_exports_exactly_two :
    error_exports = ["MakcuError", "MakcuConnectionError"] ∧
    error_exports.length = 2 ∧
    "MakcuConnectionError" ≠ "MakcuError" ∧
    ∀ n ∈ error_exports, n ∈ makcu_all := by
  decide

/-- C6: the factory function's signature has exactly the three parameters
`port`, `debug` and `send_init`; `port` is nullable/optional with default
`None`, while `debug` and `send_init` are boolean flags. -/
theorem create_controller_signature_shape :
    create_controller_signature.length = 3 ∧
    create_controller_signature.map PyParam.name = ["port", "debug", "send_init"] ∧
    (∃ p ∈ create_controller_signature,
        p.name = "port" ∧ p.dflt = some PyValue.pyNone) ∧
    (∃ p ∈ create_controller_signature,
        p.name = "debug" ∧ ∃ b, p.dflt = some (PyValue.pyBool b)) ∧
    (∃ p ∈ create_controller_signature,
        p.name = "send_init" ∧ ∃ b, p.dflt = some (PyValue.pyBool b)) := by
  refine ⟨rfl, rfl, ⟨⟨"port", some PyValue.pyNone⟩, by decide, rfl, rfl⟩,
    ⟨⟨"debug", some (PyValue.pyBool false)⟩, by decide, rfl, false, rfl⟩,
    ⟨⟨"send_init", some (PyValue.pyBool true)⟩, by decide, rfl, true, rfl⟩⟩

/-- C7: every parameter of `create_controller` has a default — `port`
defaults to `None`, `debug` to `False` and `send_init` to `True` — so the
zero-argument call behaves exactly as
`create_controller(port=None, debug=False, send_init=True)`: by default
the initialization handshake flag is on and debug is off. -/
theorem create_controller_default_call (env : ControllerEnv) (h : Heap) :
    create_controller₀ env h = create_controller env h none false true ∧
    create_controller_default_port = none ∧
    create_controller_default_debug = false ∧
    create_controller_default_send_init = true ∧
    create_controller_signature.map PyParam.dflt =
      [some PyValue.pyNone, some (PyValue.pyBool false), some (PyValue.pyBool true)] :=
  ⟨rfl, rfl, rfl, rfl, rfl⟩

end Makcu
